import Mathlib

/-!
Verification of the tuktuk-group-rides dispatch engine.

Shallow embedding of the ride/driver persistence operations of
`src/bot/db.py` (class `AsyncDB`) and the pure estimation helpers of
`src/bot/utils.py`, together with theorems settling the specification
claims about them.

Modelling conventions:
* the SQL `rides` table is a partial map from the SERIAL primary key to
  a row record, together with the next id the sequence will hand out;
* nullable SQL columns become `Option` fields;
* SQL `DECIMAL` / Python float arithmetic is modelled exactly over `ℚ`
  (and over `ℝ` for the transcendental haversine helper);
* the wall clock `int(time.time())` is passed in as an explicit `ts`
  parameter;
* each `async` method acquires rows and writes them back sequentially,
  so a method is one state-to-state function.
-/

namespace TukTuk

/-- Row of the `rides` table as created in `AsyncDB._create_tables`
(src/bot/db.py lines 41-61).  Nullable columns are `Option`. -/
structure Ride where
  rider_tg_id : Int
  pickup_lat : Option ℚ
  pickup_lng : Option ℚ
  drop_lat : Option ℚ
  drop_lng : Option ℚ
  drop_text : Option String
  group_size : Int
  status : String
  fare_estimate : ℚ
  final_fare : Option ℚ
  estimated_pickup_time : Int
  estimated_trip_time : Int
  assigned_driver_id : Option Int
  created_at : Int
  cancelled_at : Option Int
  cancelled_by : Option String
  deriving DecidableEq

/-- The `rides` table: a map from the SERIAL primary key `id` to the row,
plus the next value of the id sequence. -/
structure RidesDB where
  rides : Nat → Option Ride
  next_id : Nat

/-- Empty `rides` table; Postgres SERIAL sequences start at 1. -/
def initRidesDB : RidesDB := { rides := fun _ => none, next_id := 1 }

/-- Overwrite the row with primary key `ride_id` (an SQL UPDATE hit). -/
def RidesDB.update (db : RidesDB) (ride_id : Nat) (r : Ride) : RidesDB :=
  { db with rides := fun n => if n = ride_id then some r else db.rides n }

/-- `AsyncDB.create_ride` (src/bot/db.py lines 162-173): INSERT a new row
with `status='searching'`, returning the fresh id.  `ts` models
`int(time.time())`. -/
def create_ride (db : RidesDB) (rider_tg_id : Int)
    (pickup_lat pickup_lng drop_lat drop_lng : Option ℚ) (drop_text : Option String)
    (group_size : Int) (fare_estimate : ℚ)
    (estimated_pickup_time estimated_trip_time : Int) (ts : Int) : RidesDB × Nat :=
  let r : Ride :=
    { rider_tg_id := rider_tg_id
      pickup_lat := pickup_lat
      pickup_lng := pickup_lng
      drop_lat := drop_lat
      drop_lng := drop_lng
      drop_text := drop_text
      group_size := group_size
      status := "searching"
      fare_estimate := fare_estimate
      final_fare := none
      estimated_pickup_time := estimated_pickup_time
      estimated_trip_time := estimated_trip_time
      assigned_driver_id := none
      created_at := ts
      cancelled_at := none
      cancelled_by := none }
  ({ rides := fun n => if n = db.next_id then some r else db.rides n,
     next_id := db.next_id + 1 }, db.next_id)

/-- `AsyncDB.assign_ride_if_unassigned` (src/bot/db.py lines 193-203):
`UPDATE rides SET assigned_driver_id=$1, status='assigned' WHERE id=$2 AND
assigned_driver_id IS NULL`, returning whether a row was modified. -/
def assign_ride_if_unassigned (db : RidesDB) (ride_id : Nat) (driver_id : Int) :
    RidesDB × Bool :=
  match db.rides ride_id with
  | some r =>
    if r.assigned_driver_id = none then
      (db.update ride_id { r with assigned_driver_id := some driver_id, status := "assigned" },
       true)
    else (db, false)
  | none => (db, false)

/-- `AsyncDB.set_ride_status` (src/bot/db.py lines 205-207):
`UPDATE rides SET status=$1 WHERE id=$2`. -/
def set_ride_status (db : RidesDB) (ride_id : Nat) (status : String) : RidesDB :=
  match db.rides ride_id with
  | some r => db.update ride_id { r with status := status }
  | none => db

/-- `AsyncDB.cancel_ride` (src/bot/db.py lines 209-215):
`UPDATE rides SET status='cancelled', cancelled_at=$1, cancelled_by=$2
WHERE id=$3`, unconditionally on the row's current state. -/
def cancel_ride (db : RidesDB) (ride_id : Nat) (cancelled_by : String) (ts : Int) : RidesDB :=
  match db.rides ride_id with
  | some r =>
    db.update ride_id
      { r with status := "cancelled", cancelled_at := some ts, cancelled_by := some cancelled_by }
  | none => db

/-- `AsyncDB.update_ride_fare` (src/bot/db.py lines 217-219):
`UPDATE rides SET final_fare=$1 WHERE id=$2`. -/
def update_ride_fare (db : RidesDB) (ride_id : Nat) (final_fare : ℚ) : RidesDB :=
  match db.rides ride_id with
  | some r => db.update ride_id { r with final_fare := some final_fare }
  | none => db

/-- Sequentialisation of a batch of claim attempts on one ride: each driver
in the list calls `assign_ride_if_unassigned` in turn (the per-row write
serialisation of the conditional UPDATE); returns the final table and the
list of boolean results in order. -/
def claimAll (db : RidesDB) (ride_id : Nat) : List Int → RidesDB × List Bool
  | [] => (db, [])
  | d :: ds =>
    let step := assign_ride_if_unassigned db ride_id d
    let rest := claimAll step.1 ride_id ds
    (rest.1, step.2 :: rest.2)

lemma update_lookup_self (db : RidesDB) (i : Nat) (r : Ride) :
    (db.update i r).rides i = some r := by
  simp [RidesDB.update]

lemma assign_of_unassigned (db : RidesDB) (i : Nat) (d : Int) (r : Ride)
    (hr : db.rides i = some r) (hu : r.assigned_driver_id = none) :
    assign_ride_if_unassigned db i d =
      (db.update i { r with assigned_driver_id := some d, status := "assigned" }, true) := by
  simp [assign_ride_if_unassigned, hr, hu]

lemma assign_of_assigned (db : RidesDB) (i : Nat) (d : Int) (r : Ride) (x : Int)
    (hr : db.rides i = some r) (hu : r.assigned_driver_id = some x) :
    assign_ride_if_unassigned db i d = (db, false) := by
  simp [assign_ride_if_unassigned, hr, hu]

lemma claimAll_of_assigned (i : Nat) (ds : List Int) :
    ∀ (db : RidesDB) (r : Ride) (x : Int),
      db.rides i = some r → r.assigned_driver_id = some x →
      claimAll db i ds = (db, List.replicate ds.length false) := by
  induction ds with
  | nil => intro db r x _ _; simp [claimAll]
  | cons d ds ih =>
    intro db r x hr hx
    simp [claimAll, assign_of_assigned db i d r x hr hx, ih db r x hr hx, List.replicate]

/-- Claim C1: a claim on a ride with NULL `assigned_driver_id` returns true and
sets `assigned_driver_id` to the claimant and `status` to `assigned`; a claim on
a ride with non-NULL `assigned_driver_id` returns false and changes nothing; and
a batch of claim attempts on an unassigned ride yields true for the first
claimant and false for all later ones, the final `assigned_driver_id` being the
sole winner. -/
theorem claim_exactly_one_winner :
    (∀ (db : RidesDB) (i : Nat) (d : Int) (r : Ride),
      db.rides i = some r → r.assigned_driver_id = none →
        (assign_ride_if_unassigned db i d).2 = true ∧
        (assign_ride_if_unassigned db i d).1.rides i =
          some { r with assigned_driver_id := some d, status := "assigned" }) ∧
    (∀ (db : RidesDB) (i : Nat) (d : Int) (r : Ride) (x : Int),
      db.rides i = some r → r.assigned_driver_id = some x →
        assign_ride_if_unassigned db i d = (db, false)) ∧
    (∀ (db : RidesDB) (i : Nat) (d : Int) (ds : List Int) (r : Ride),
      db.rides i = some r → r.assigned_driver_id = none →
        (claimAll db i (d :: ds)).2 = true :: List.replicate ds.length false ∧
        (claimAll db i (d :: ds)).2.count true = 1 ∧
        ((claimAll db i (d :: ds)).1.rides i).map Ride.assigned_driver_id =
          some (some d)) := by
  refine ⟨?_, ?_, ?_⟩
  · intro db i d r hr hu
    rw [assign_of_unassigned db i d r hr hu]
    exact ⟨rfl, update_lookup_self ..⟩
  · intro db i d r x hr hx
    exact assign_of_assigned db i d r x hr hx
  · intro db i d ds r hr hu
    have hstep := assign_of_unassigned db i d r hr hu
    have hlook := update_lookup_self db i
      { r with assigned_driver_id := some d, status := "assigned" }
    have hrest := claimAll_of_assigned i ds
      (db.update i { r with assigned_driver_id := some d, status := "assigned" })
      { r with assigned_driver_id := some d, status := "assigned" } d hlook rfl
    refine ⟨?_, ?_, ?_⟩
    · simp [claimAll, hstep, hrest]
    · simp [claimAll, hstep, hrest, List.count_replicate]
    · simp [claimAll, hstep, hrest, hlook]

/-- Witness for C1 at a concrete table: one ride created, three drivers race. -/
theorem claim_exactly_one_winner_witness :
    (claimAll (create_ride initRidesDB 11 (some 1) (some 2) none none none 2 150 8 10 1000).1
        1 [7, 8, 9]).2 = [true, false, false] ∧
    ((claimAll (create_ride initRidesDB 11 (some 1) (some 2) none none none 2 150 8 10 1000).1
        1 [7, 8, 9]).1.rides 1).map Ride.assigned_driver_id = some (some 7) := by
  have h := claim_exactly_one_winner.2.2
    (create_ride initRidesDB 11 (some 1) (some 2) none none none 2 150 8 10 1000).1
    1 7 [8, 9]
    { rider_tg_id := 11, pickup_lat := some 1, pickup_lng := some 2, drop_lat := none,
      drop_lng := none, drop_text := none, group_size := 2, status := "searching",
      fare_estimate := 150, final_fare := none, estimated_pickup_time := 8,
      estimated_trip_time := 10, assigned_driver_id := none, created_at := 1000,
      cancelled_at := none, cancelled_by := none }
    rfl rfl
  exact ⟨h.1, h.2.2⟩

lemma cancel_of_mem (db : RidesDB) (i : Nat) (actor : String) (ts : Int) (r : Ride)
    (hr : db.rides i = some r) :
    cancel_ride db i actor ts =
      db.update i
        { r with status := "cancelled", cancelled_at := some ts, cancelled_by := some actor } := by
  simp [cancel_ride, hr]

/-- Claim C2 counterexample: create a ride, cancel it while it is still
`searching` (so `assigned_driver_id` is NULL), and a subsequent claim call
returns true and assigns the driver — the claim does not return false on the
cancelled ride. -/
theorem cancelled_ride_claim_counterexample :
    ((cancel_ride (create_ride initRidesDB 11 (some 1) (some 2) none none none 2 150 8 10 1000).1
        1 "rider" 1500).rides 1).map Ride.status = some "cancelled" ∧
    (assign_ride_if_unassigned
      (cancel_ride (create_ride initRidesDB 11 (some 1) (some 2) none none none 2 150 8 10 1000).1
        1 "rider" 1500) 1 7).2 = true ∧
    ((assign_ride_if_unassigned
      (cancel_ride (create_ride initRidesDB 11 (some 1) (some 2) none none none 2 150 8 10 1000).1
        1 "rider" 1500) 1 7).1.rides 1).map Ride.assigned_driver_id = some (some 7) := by
  refine ⟨rfl, rfl, rfl⟩

/-- Claim C2 amended: after `cancel_ride` on a ride whose `assigned_driver_id`
is NULL, a subsequent `assign_ride_if_unassigned` still returns true and
assigns the driver (the guard of the conditional UPDATE tests only
`assigned_driver_id IS NULL`, not the status); claims return false only once
`assigned_driver_id` is non-NULL. -/
theorem claim_after_cancel_succeeds (db : RidesDB) (i : Nat) (actor : String) (ts : Int)
    (d : Int) (r : Ride) (hr : db.rides i = some r) (hu : r.assigned_driver_id = none) :
    (assign_ride_if_unassigned (cancel_ride db i actor ts) i d).2 = true ∧
    (assign_ride_if_unassigned (cancel_ride db i actor ts) i d).1.rides i =
      some { r with cancelled_at := some ts, cancelled_by := some actor,
                    assigned_driver_id := some d, status := "assigned" } := by
  have hc := cancel_of_mem db i actor ts r hr
  have hlook := update_lookup_self db i
    { r with status := "cancelled", cancelled_at := some ts, cancelled_by := some actor }
  have hstep := assign_of_unassigned
    (db.update i { r with status := "cancelled", cancelled_at := some ts,
                          cancelled_by := some actor })
    i d { r with status := "cancelled", cancelled_at := some ts, cancelled_by := some actor }
    hlook hu
  rw [hc, hstep]
  exact ⟨rfl, update_lookup_self ..⟩

/-- Witness for C2's amended theorem at a concrete table. -/
theorem claim_after_cancel_succeeds_witness :
    (assign_ride_if_unassigned
      (cancel_ride (create_ride initRidesDB 12 (some 3) (some 4) none none none 1 120 8 0 2000).1
        1 "rider" 2100) 1 9).2 = true := by
  have h := claim_after_cancel_succeeds
    (create_ride initRidesDB 12 (some 3) (some 4) none none none 1 120 8 0 2000).1
    1 "rider" 2100 9
    { rider_tg_id := 12, pickup_lat := some 3, pickup_lng := some 4, drop_lat := none,
      drop_lng := none, drop_text := none, group_size := 1, status := "searching",
      fare_estimate := 120, final_fare := none, estimated_pickup_time := 8,
      estimated_trip_time := 0, assigned_driver_id := none, created_at := 2000,
      cancelled_at := none, cancelled_by := none }
    rfl rfl
  exact h.1

/-- Claim C4 counterexample: drive a ride to status `completed` (create, claim,
set status) and then call `cancel_ride`: the status changes from `completed` to
`cancelled`, so cancel on a terminal ride is not a status-preserving no-op. -/
theorem cancel_completed_ride_counterexample :
    ((set_ride_status
        (assign_ride_if_unassigned
          (create_ride initRidesDB 11 (some 1) (some 2) none none none 2 150 8 10 1000).1
          1 7).1 1 "completed").rides 1).map Ride.status = some "completed" ∧
    ((cancel_ride
        (set_ride_status
          (assign_ride_if_unassigned
            (create_ride initRidesDB 11 (some 1) (some 2) none none none 2 150 8 10 1000).1
            1 7).1 1 "completed") 1 "rider" 2000).rides 1).map Ride.status =
      some "cancelled" := by
  refine ⟨rfl, rfl⟩

/-- Claim C4 amended: `cancel_ride` is unconditional — on any existing ride,
whatever its status, it sets status to `cancelled` and overwrites
`cancelled_at` and `cancelled_by`; hence cancelling an already-cancelled ride
leaves the status unchanged at `cancelled` (and reports nothing, the method
returns no value), while cancelling a `completed` ride changes its status to
`cancelled`: there is no terminal-state guard. -/
theorem cancel_ride_unconditional (db : RidesDB) (i : Nat) (actor : String) (ts : Int)
    (r : Ride) (hr : db.rides i = some r) :
    (cancel_ride db i actor ts).rides i =
      some { r with status := "cancelled", cancelled_at := some ts,
                    cancelled_by := some actor } ∧
    (r.status = "cancelled" →
      ((cancel_ride db i actor ts).rides i).map Ride.status = some r.status) := by
  have hc := cancel_of_mem db i actor ts r hr
  rw [hc]
  refine ⟨update_lookup_self .., fun hs => ?_⟩
  rw [update_lookup_self, hs]
  rfl

/-- Witness for C4's amended theorem at a concrete table. -/
theorem cancel_ride_unconditional_witness :
    ((cancel_ride (create_ride initRidesDB 12 (some 3) (some 4) none none none 1 120 8 0 2000).1
        1 "admin" 2222).rides 1).map Ride.status = some "cancelled" := by
  have h := cancel_ride_unconditional
    (create_ride initRidesDB 12 (some 3) (some 4) none none none 1 120 8 0 2000).1
    1 "admin" 2222
    { rider_tg_id := 12, pickup_lat := some 3, pickup_lng := some 4, drop_lat := none,
      drop_lng := none, drop_text := none, group_size := 1, status := "searching",
      fare_estimate := 120, final_fare := none, estimated_pickup_time := 8,
      estimated_trip_time := 0, assigned_driver_id := none, created_at := 2000,
      cancelled_at := none, cancelled_by := none }
    rfl
  rw [h.1]
  rfl

/-- Claim C8 counterexample: `create_ride` called with absent pickup
coordinates and `group_size = 0` does not fail with any validation error — it
creates a ride, with status `searching` and the invalid values stored as
given. -/
theorem create_ride_no_validation_counterexample :
    ((create_ride initRidesDB 11 none none none none none 0 0 0 0 1000).1.rides
      (create_ride initRidesDB 11 none none none none none 0 0 0 0 1000).2) =
    some { rider_tg_id := 11, pickup_lat := none, pickup_lng := none, drop_lat := none,
           drop_lng := none, drop_text := none, group_size := 0, status := "searching",
           fare_estimate := 0, final_fare := none, estimated_pickup_time := 0,
           estimated_trip_time := 0, assigned_driver_id := none, created_at := 1000,
           cancelled_at := none, cancelled_by := none } := by
  rfl

/-- Claim C8 amended: `create_ride` always inserts a ride whose initial status
is `searching` for every input, including absent pickup coordinates or
`group_size < 1`; it performs no validation and raises no `ValidationError`
(no such error exists in the code). -/
theorem create_ride_always_searching (db : RidesDB) (rider_tg_id : Int)
    (pickup_lat pickup_lng drop_lat drop_lng : Option ℚ) (drop_text : Option String)
    (group_size : Int) (fare_estimate : ℚ)
    (estimated_pickup_time estimated_trip_time : Int) (ts : Int) :
    (create_ride db rider_tg_id pickup_lat pickup_lng drop_lat drop_lng drop_text
        group_size fare_estimate estimated_pickup_time estimated_trip_time ts).1.rides
      (create_ride db rider_tg_id pickup_lat pickup_lng drop_lat drop_lng drop_text
        group_size fare_estimate estimated_pickup_time estimated_trip_time ts).2 =
    some { rider_tg_id := rider_tg_id, pickup_lat := pickup_lat, pickup_lng := pickup_lng,
           drop_lat := drop_lat, drop_lng := drop_lng, drop_text := drop_text,
           group_size := group_size, status := "searching", fare_estimate := fare_estimate,
           final_fare := none, estimated_pickup_time := estimated_pickup_time,
           estimated_trip_time := estimated_trip_time, assigned_driver_id := none,
           created_at := ts, cancelled_at := none, cancelled_by := none } := by
  simp [create_ride]

/-- The operations the bot performs against the `rides` table, as invoked by
the handlers in src/bot/rides.py and src/bot/handlers.py: ride creation, the
claim, cancellation, the two status writes the handlers issue —
`set_ride_status(_, 'driver_assigned')` (rides.py line 219) and
`set_ride_status(_, 'completed')` (rides.py line 418) — and fare
finalization. -/
inductive RideOp where
  | create (rider_tg_id : Int) (pickup_lat pickup_lng drop_lat drop_lng : Option ℚ)
      (drop_text : Option String) (group_size : Int) (fare_estimate : ℚ)
      (estimated_pickup_time estimated_trip_time : Int) (ts : Int)
  | claim (ride_id : Nat) (driver_id : Int)
  | cancel (ride_id : Nat) (actor : String) (ts : Int)
  | markDriverAssigned (ride_id : Nat)
  | markCompleted (ride_id : Nat)
  | finalizeFare (ride_id : Nat) (fare : ℚ)

/-- Effect of one ride operation on the table. -/
def applyRideOp (db : RidesDB) : RideOp → RidesDB
  | .create rider plat plng dlat dlng dtext gs fare etp ett ts =>
      (create_ride db rider plat plng dlat dlng dtext gs fare etp ett ts).1
  | .claim i d => (assign_ride_if_unassigned db i d).1
  | .cancel i actor ts => cancel_ride db i actor ts
  | .markDriverAssigned i => set_ride_status db i "driver_assigned"
  | .markCompleted i => set_ride_status db i "completed"
  | .finalizeFare i fare => update_ride_fare db i fare

/-- Apply a whole sequence of ride operations starting from a table. -/
def applyRideOps (db : RidesDB) (ops : List RideOp) : RidesDB :=
  ops.foldl applyRideOp db

/-- Per-row invariant that actually holds in every reachable table: a
`searching` ride is unassigned and an `assigned` ride has a driver. -/
def RidesInv (db : RidesDB) : Prop :=
  ∀ i r, db.rides i = some r →
    (r.status = "searching" → r.assigned_driver_id = none) ∧
    (r.status = "assigned" → r.assigned_driver_id ≠ none)

lemma update_lookup (db : RidesDB) (i : Nat) (r : Ride) (j : Nat) :
    (db.update i r).rides j = if j = i then some r else db.rides j := rfl

lemma ne_searching_assigned : ("searching" : String) ≠ "assigned" := by decide

lemma ne_assigned_searching : ("assigned" : String) ≠ "searching" := by decide

lemma ne_cancelled_searching : ("cancelled" : String) ≠ "searching" := by decide

lemma ne_cancelled_assigned : ("cancelled" : String) ≠ "assigned" := by decide

lemma ne_da_searching : ("driver_assigned" : String) ≠ "searching" := by decide

lemma ne_da_assigned : ("driver_assigned" : String) ≠ "assigned" := by decide

lemma ne_completed_searching : ("completed" : String) ≠ "searching" := by decide

lemma ne_completed_assigned : ("completed" : String) ≠ "assigned" := by decide

lemma ridesInv_update (db : RidesDB) (i : Nat) (r : Ride) (hdb : RidesInv db)
    (hr : (r.status = "searching" → r.assigned_driver_id = none) ∧
          (r.status = "assigned" → r.assigned_driver_id ≠ none)) :
    RidesInv (db.update i r) := by
  intro j s hs
  rw [update_lookup] at hs
  by_cases hij : j = i
  · rw [if_pos hij] at hs
    injection hs with h
    subst h
    exact hr
  · rw [if_neg hij] at hs
    exact hdb j s hs

lemma ridesInv_step (db : RidesDB) (op : RideOp) (hdb : RidesInv db) :
    RidesInv (applyRideOp db op) := by
  cases op with
  | create rider plat plng dlat dlng dtext gs fare etp ett ts =>
    intro j s hs
    simp only [applyRideOp, create_ride] at hs
    by_cases hij : j = db.next_id
    · rw [if_pos hij] at hs
      injection hs with h
      subst h
      exact ⟨fun _ => rfl, fun habs => (ne_searching_assigned habs).elim⟩
    · rw [if_neg hij] at hs
      exact hdb j s hs
  | claim i d =>
    simp only [applyRideOp]
    cases hr : db.rides i with
    | none =>
      simpa [assign_ride_if_unassigned, hr] using hdb
    | some r0 =>
      by_cases hu : r0.assigned_driver_id = none
      · rw [assign_of_unassigned db i d r0 hr hu]
        exact ridesInv_update db i _ hdb
          ⟨fun habs => (ne_assigned_searching habs).elim, fun _ => by simp⟩
      · simp only [assign_ride_if_unassigned, hr, if_neg hu]
        exact hdb
  | cancel i actor ts =>
    simp only [applyRideOp]
    cases hr : db.rides i with
    | none => simpa [cancel_ride, hr] using hdb
    | some r0 =>
      rw [cancel_of_mem db i actor ts r0 hr]
      exact ridesInv_update db i _ hdb
        ⟨fun habs => (ne_cancelled_searching habs).elim,
         fun habs => (ne_cancelled_assigned habs).elim⟩
  | markDriverAssigned i =>
    simp only [applyRideOp, set_ride_status]
    cases hr : db.rides i with
    | none => exact hdb
    | some r0 =>
      exact ridesInv_update db i _ hdb
        ⟨fun habs => (ne_da_searching habs).elim, fun habs => (ne_da_assigned habs).elim⟩
  | markCompleted i =>
    simp only [applyRideOp, set_ride_status]
    cases hr : db.rides i with
    | none => exact hdb
    | some r0 =>
      exact ridesInv_update db i _ hdb
        ⟨fun habs => (ne_completed_searching habs).elim,
         fun habs => (ne_completed_assigned habs).elim⟩
  | finalizeFare i fare =>
    simp only [applyRideOp, update_ride_fare]
    cases hr : db.rides i with
    | none => exact hdb
    | some r0 =>
      exact ridesInv_update db i _ hdb (hdb i r0 hr)

lemma ridesInv_fold (ops : List RideOp) :
    ∀ db : RidesDB, RidesInv db → RidesInv (applyRideOps db ops) := by
  induction ops with
  | nil => intro db hdb; exact hdb
  | cons op ops ih =>
    intro db hdb
    exact ih (applyRideOp db op) (ridesInv_step db op hdb)

/-- Table reached by: create ride 1, driver 7 claims it, rider cancels.  All
three are operations of the claimed operation set; the resulting ride is
`cancelled` yet still carries `assigned_driver_id = 7`. -/
def cexDB : RidesDB :=
  cancel_ride
    (assign_ride_if_unassigned
      (create_ride initRidesDB 11 (some 1) (some 2) none none none 2 150 8 10 1000).1
      1 7).1
    1 "rider" 2000

/-- Claim C3 counterexample: after the operation sequence create, claim,
cancel, ride 1 has `assigned_driver_id = 7` (non-null) while its status is
`cancelled`, which is none of `assigned`, `driver_assigned`, `completed` — so
the claimed biconditional fails in a reachable state. -/
theorem rides_invariant_counterexample :
    (cexDB.rides 1).map Ride.assigned_driver_id = some (some 7) ∧
    (cexDB.rides 1).map Ride.status = some "cancelled" ∧
    ("cancelled" ≠ "assigned" ∧ "cancelled" ≠ "driver_assigned" ∧
      "cancelled" ≠ "completed") := by
  refine ⟨rfl, rfl, by decide, by decide, by decide⟩

/-- Claim C3 amended: in every table reachable from the empty table by any
sequence of the ride operations (create, claim, cancel, the handlers' two
status writes, finalize fare), every ride with status `searching` has
`assigned_driver_id` NULL and every ride with status `assigned` has
`assigned_driver_id` non-NULL.  The original biconditional fails: `cancel_ride`
does not clear `assigned_driver_id`, and `set_ride_status` does not require a
driver to be assigned. -/
theorem reachable_rides_invariant (ops : List RideOp) (i : Nat) (r : Ride)
    (hr : (applyRideOps initRidesDB ops).rides i = some r) :
    (r.status = "searching" → r.assigned_driver_id = none) ∧
    (r.status = "assigned" → r.assigned_driver_id ≠ none) := by
  have hinit : RidesInv initRidesDB := by
    intro j s hs
    simp [initRidesDB] at hs
  exact ridesInv_fold ops initRidesDB hinit i r hr

/-- The row created by the sample `create_ride` call used in witnesses. -/
def sampleRide : Ride :=
  { rider_tg_id := 11, pickup_lat := some 1, pickup_lng := some 2, drop_lat := none,
    drop_lng := none, drop_text := none, group_size := 2, status := "searching",
    fare_estimate := 150, final_fare := none, estimated_pickup_time := 8,
    estimated_trip_time := 10, assigned_driver_id := none, created_at := 1000,
    cancelled_at := none, cancelled_by := none }

/-- Witness for C3's amended theorem: instantiate the invariant on the table
reached by one concrete create operation. -/
theorem reachable_rides_invariant_witness :
    (sampleRide.status = "searching" → sampleRide.assigned_driver_id = none) ∧
    (sampleRide.status = "assigned" → sampleRide.assigned_driver_id ≠ none) :=
  reachable_rides_invariant
    [RideOp.create 11 (some 1) (some 2) none none none 2 150 8 10 1000]
    1 sampleRide rfl

/-- Python `round()` to an integer: round half to even (banker's rounding). -/
def roundHalfEven (x : ℚ) : ℤ :=
  if x - ⌊x⌋ < 1/2 then ⌊x⌋
  else if 1/2 < x - ⌊x⌋ then ⌊x⌋ + 1
  else if Even ⌊x⌋ then ⌊x⌋ else ⌊x⌋ + 1

/-- Python `round(x, 2)`: round to the nearest multiple of 1/100. -/
def pyRound2 (x : ℚ) : ℚ := (roundHalfEven (x * 100) : ℚ) / 100

/-- Python `int(x)` on a float: truncation toward zero. -/
def pyInt (x : ℚ) : ℤ := if 0 ≤ x then ⌊x⌋ else ⌈x⌉

/-- `calculate_fare_estimate` (src/bot/utils.py lines 61-69). -/
def calculate_fare_estimate (distance_km : ℚ) (estimated_time_min : Int)
    (group_size : Int) : ℚ :=
  let base_fare : ℚ := 100
  let per_km_rate : ℚ := 50
  let per_min_rate : ℚ := 2
  let group_surcharge : ℚ := 1.0 + ((group_size : ℚ) - 1) * 0.2
  pyRound2 ((base_fare + distance_km * per_km_rate + (estimated_time_min : ℚ) * per_min_rate)
    * group_surcharge)

/-- Fare formula exactly as the specification words it:
`(base_fare + distanceKm*per_km_rate + estimatedMinutes*per_min_rate) *
(1 + (groupSize-1)*0.2)` with base_fare=100, per_km_rate=50, per_min_rate=2,
rounded to 2 decimal places. -/
def estimateFareSpec (distanceKm : ℚ) (estimatedMinutes : Int) (groupSize : Int) : ℚ :=
  pyRound2 ((100 + distanceKm * 50 + (estimatedMinutes : ℚ) * 2)
    * (1 + ((groupSize : ℚ) - 1) * 0.2))

/-- `estimate_travel_time` (src/bot/utils.py lines 71-73):
`int((distance_km / avg_speed_kmh) * 60)`; the default speed is 30. -/
def estimate_travel_time (distance_km : ℚ) (avg_speed_kmh : ℚ) : ℤ :=
  pyInt (distance_km / avg_speed_kmh * 60)

/-- Travel-time estimate as the specification words it:
`round(distanceKm / avgSpeedKmh * 60)`, rounding to the nearest integer. -/
def estimateTravelMinutesSpec (distanceKm : ℚ) (avgSpeedKmh : ℚ) : ℤ :=
  round (distanceKm / avgSpeedKmh * 60)

lemma le_roundHalfEven (x : ℚ) : ⌊x⌋ ≤ roundHalfEven x := by
  unfold roundHalfEven
  split_ifs <;> omega

lemma roundHalfEven_le_add_one (x : ℚ) : roundHalfEven x ≤ ⌊x⌋ + 1 := by
  unfold roundHalfEven
  split_ifs <;> omega

lemma roundHalfEven_mono {x y : ℚ} (h : x ≤ y) : roundHalfEven x ≤ roundHalfEven y := by
  have hf := Int.floor_le_floor h
  rcases eq_or_lt_of_le hf with hf2 | hf2
  · have h1 : x - (⌊x⌋ : ℚ) ≤ y - (⌊x⌋ : ℚ) := by linarith
    unfold roundHalfEven
    rw [← hf2]
    split_ifs <;> first | omega | linarith
  · calc roundHalfEven x ≤ ⌊x⌋ + 1 := roundHalfEven_le_add_one x
      _ ≤ ⌊y⌋ := by omega
      _ ≤ roundHalfEven y := le_roundHalfEven y

lemma pyRound2_mono {x y : ℚ} (h : x ≤ y) : pyRound2 x ≤ pyRound2 y := by
  unfold pyRound2
  have h1 := roundHalfEven_mono (mul_le_mul_of_nonneg_right h (by norm_num : (0:ℚ) ≤ 100))
  have h2 : ((roundHalfEven (x * 100) : ℚ)) ≤ ((roundHalfEven (y * 100) : ℚ)) := by
    exact_mod_cast h1
  linarith

/-- Claim C6: the fare estimate equals the spec formula
`(100 + d*50 + m*2) * (1 + (g-1)*0.2)` rounded to 2 decimal places, and for
`d ≥ 0`, `m ≥ 0`, `g ≥ 1` it is monotonically non-decreasing in distance,
minutes and group size jointly (hence in each argument separately). -/
theorem calculate_fare_estimate_spec_and_mono :
    (∀ (d : ℚ) (m g : Int), calculate_fare_estimate d m g = estimateFareSpec d m g) ∧
    (∀ (d dq : ℚ) (m mq g gq : Int), 0 ≤ d → 0 ≤ m → 1 ≤ g →
      d ≤ dq → m ≤ mq → g ≤ gq →
      calculate_fare_estimate d m g ≤ calculate_fare_estimate dq mq gq) := by
  constructor
  · intro d m g
    unfold calculate_fare_estimate estimateFareSpec
    norm_num
  · intro d dq m mq g gq hd0 hm0 hg1 hd hm hg
    unfold calculate_fare_estimate
    apply pyRound2_mono
    have hmq : (m : ℚ) ≤ (mq : ℚ) := by exact_mod_cast hm
    have hgq : (g : ℚ) ≤ (gq : ℚ) := by exact_mod_cast hg
    have hg1q : (1 : ℚ) ≤ (g : ℚ) := by exact_mod_cast hg1
    have hm0q : (0 : ℚ) ≤ (m : ℚ) := by exact_mod_cast hm0
    have hA : 100 + d * 50 + (m : ℚ) * 2 ≤ 100 + dq * 50 + (mq : ℚ) * 2 := by linarith
    have hB : 1.0 + ((g : ℚ) - 1) * 0.2 ≤ 1.0 + ((gq : ℚ) - 1) * 0.2 := by linarith
    have hB0 : 0 ≤ 1.0 + ((g : ℚ) - 1) * 0.2 := by linarith
    have hA0 : 0 ≤ 100 + dq * 50 + (mq : ℚ) * 2 := by linarith
    exact mul_le_mul hA hB hB0 hA0

/-- Witness for C6 at concrete arguments. -/
theorem calculate_fare_estimate_spec_and_mono_witness :
    calculate_fare_estimate 0 0 1 ≤ calculate_fare_estimate 1 1 2 :=
  calculate_fare_estimate_spec_and_mono.2 0 1 0 1 1 2 (by norm_num) (by norm_num)
    (by norm_num) (by norm_num) (by norm_num) (by norm_num)

/-- Claim C7 counterexample: at distance 0.9 km and speed 30 km/h the exact
value is 1.8 minutes; the code truncates to 1, while `round` gives 2. -/
theorem estimate_travel_time_counterexample :
    estimate_travel_time (9/10) 30 = 1 ∧ estimateTravelMinutesSpec (9/10) 30 = 2 ∧
    estimate_travel_time (9/10) 30 ≠ estimateTravelMinutesSpec (9/10) 30 := by
  have h1 : estimate_travel_time (9/10) 30 = 1 := by
    unfold estimate_travel_time pyInt
    norm_num
  have h2 : estimateTravelMinutesSpec (9/10) 30 = 2 := by
    unfold estimateTravelMinutesSpec
    norm_num [round_eq]
  refine ⟨h1, h2, by rw [h1, h2]; decide⟩

/-- Claim C7 amended: for distance `d ≥ 0` and speed `s > 0`,
`estimate_travel_time d s` is the truncation toward zero of `d / s * 60`,
i.e. `⌊d / s * 60⌋` (Python `int()`), not the value rounded to the nearest
integer. -/
theorem estimate_travel_time_floor (d s : ℚ) (hd : 0 ≤ d) (hs : 0 < s) :
    estimate_travel_time d s = ⌊d / s * 60⌋ := by
  unfold estimate_travel_time pyInt
  have h : 0 ≤ d / s * 60 := by positivity
  rw [if_pos h]

/-- Witness for C7's amended theorem at concrete arguments. -/
theorem estimate_travel_time_floor_witness :
    estimate_travel_time 2 30 = ⌊(2 : ℚ) / 30 * 60⌋ :=
  estimate_travel_time_floor 2 30 (by norm_num) (by norm_num)

/-- Python `math.atan2(y, x)`: the two-argument arctangent, by quadrant. -/
noncomputable def atan2 (y x : ℝ) : ℝ :=
  if 0 < x then Real.arctan (y / x)
  else if x < 0 ∧ 0 ≤ y then Real.arctan (y / x) + Real.pi
  else if x < 0 ∧ y < 0 then Real.arctan (y / x) - Real.pi
  else if x = 0 ∧ 0 < y then Real.pi / 2
  else if x = 0 ∧ y < 0 then -(Real.pi / 2)
  else 0

/-- Python `math.radians`: degrees to radians. -/
noncomputable def radians (x : ℝ) : ℝ := x * (Real.pi / 180)

/-- `AsyncDB.calculate_distance` (src/bot/db.py lines 245-258): the haversine
great-circle distance with mean Earth radius `R = 6371` km. -/
noncomputable def calculate_distance (lat1 lon1 lat2 lon2 : ℝ) : ℝ :=
  let R : ℝ := 6371
  let dlat := radians (lat2 - lat1)
  let dlon := radians (lon2 - lon1)
  let a := Real.sin (dlat / 2) * Real.sin (dlat / 2) +
    Real.cos (radians lat1) * Real.cos (radians lat2) *
      (Real.sin (dlon / 2) * Real.sin (dlon / 2))
  let c := 2 * atan2 (Real.sqrt a) (Real.sqrt (1 - a))
  R * c

lemma sin_radians_swap_sq (u v : ℝ) :
    Real.sin (radians (u - v) / 2) * Real.sin (radians (u - v) / 2) =
      Real.sin (radians (v - u) / 2) * Real.sin (radians (v - u) / 2) := by
  have h : radians (u - v) = -(radians (v - u)) := by
    unfold radians
    ring
  rw [h, neg_div, Real.sin_neg]
  ring

/-- Claim C9: `calculate_distance` is zero on equal endpoints and symmetric in
its two coordinate points. -/
theorem calculate_distance_zero_and_symm :
    (∀ lat lon : ℝ, calculate_distance lat lon lat lon = 0) ∧
    (∀ lat1 lon1 lat2 lon2 : ℝ,
      calculate_distance lat1 lon1 lat2 lon2 = calculate_distance lat2 lon2 lat1 lon1) := by
  constructor
  · intro lat lon
    simp only [calculate_distance]
    simp only [sub_self]
    have h0 : radians 0 = 0 := by
      unfold radians
      ring
    rw [h0]
    simp only [zero_div, Real.sin_zero, mul_zero, zero_mul, add_zero, zero_add]
    rw [Real.sqrt_zero, sub_zero, Real.sqrt_one]
    unfold atan2
    rw [if_pos one_pos]
    simp [Real.arctan_zero]
  · intro lat1 lon1 lat2 lon2
    simp only [calculate_distance]
    rw [sin_radians_swap_sq lat2 lat1, sin_radians_swap_sq lon2 lon1,
      mul_comm (Real.cos (radians lat1)) (Real.cos (radians lat2))]

/-- Row of the `drivers` table as created in `AsyncDB._create_tables`
(src/bot/db.py lines 26-40); `rating` defaults to 5.0 and `total_ratings`
to 0. -/
structure Driver where
  telegram_id : Int
  name : Option String
  phone : Option String
  reg_no : Option String
  status : Option String
  lat : Option ℚ
  lng : Option ℚ
  rating : ℚ
  total_ratings : Nat
  deriving DecidableEq

/-- The `drivers` table: rows keyed by the SERIAL primary key `id`, in
insertion order, plus the next value of the id sequence.  `telegram_id` is
UNIQUE, `id` is the primary key. -/
structure DriversDB where
  rows : List (Nat × Driver)
  next_id : Nat

/-- Empty `drivers` table. -/
def initDriversDB : DriversDB := { rows := [], next_id := 1 }

/-- `AsyncDB.get_driver_by_tg` (src/bot/db.py lines 129-132): SELECT by the
UNIQUE `telegram_id`. -/
def get_driver_by_tg (db : DriversDB) (tg_id : Int) : Option Driver :=
  (db.rows.find? fun p => p.2.telegram_id = tg_id).map Prod.snd

/-- `AsyncDB.get_driver_by_id` (src/bot/db.py lines 134-139): returns None on
a falsy id, else SELECT by primary key. -/
def get_driver_by_id (db : DriversDB) (driver_id : Nat) : Option Driver :=
  if driver_id = 0 then none
  else (db.rows.find? fun p => p.1 = driver_id).map Prod.snd

/-- SQL `COALESCE(new, old)`. -/
def coalesce (new old : Option String) : Option String :=
  match new with
  | some v => some v
  | none => old

/-- `AsyncDB.add_or_update_driver` (src/bot/db.py lines 110-119):
`INSERT ... VALUES ($1,$2,$3,$4,'offline') ON CONFLICT (telegram_id) DO
UPDATE SET name = COALESCE(EXCLUDED.name, drivers.name), phone = COALESCE(...),
reg_no = COALESCE(...)`.  A conflict updates only name/phone/reg_no of the row
with that `telegram_id`; a fresh insert gets status `offline` and the column
defaults rating 5.0, total_ratings 0, NULL location. -/
def upsertDriverRow (tg_id : Int) (name phone reg_no : Option String)
    (p : Nat × Driver) : Nat × Driver :=
  if p.2.telegram_id = tg_id then
    (p.1, { p.2 with name := coalesce name p.2.name,
                     phone := coalesce phone p.2.phone,
                     reg_no := coalesce reg_no p.2.reg_no })
  else p

def add_or_update_driver (db : DriversDB) (tg_id : Int)
    (name phone reg_no : Option String) : DriversDB :=
  if (db.rows.find? fun p => p.2.telegram_id = tg_id).isSome then
    { db with rows := db.rows.map (upsertDriverRow tg_id name phone reg_no) }
  else
    { rows := db.rows ++ [(db.next_id,
        { telegram_id := tg_id, name := name, phone := phone, reg_no := reg_no,
          status := some "offline", lat := none, lng := none, rating := 5,
          total_ratings := 0 })],
      next_id := db.next_id + 1 }

/-- `AsyncDB.update_driver_rating` (src/bot/db.py lines 146-159): read the
driver by id; if present compute
`new_avg = (current_rating * total_ratings + new_rating) / (total_ratings + 1)`
and issue `UPDATE drivers SET rating=$1, total_ratings=total_ratings+1 WHERE
id=$2`; if absent do nothing. -/
def rateDriverRow (driver_id : Nat) (d : Driver) (new_rating : Int)
    (p : Nat × Driver) : Nat × Driver :=
  if p.1 = driver_id then
    (p.1, { p.2 with
            rating := (d.rating * (d.total_ratings : ℚ) + (new_rating : ℚ)) /
              ((d.total_ratings : ℚ) + 1),
            total_ratings := p.2.total_ratings + 1 })
  else p

def update_driver_rating (db : DriversDB) (driver_id : Nat) (new_rating : Int) : DriversDB :=
  match get_driver_by_id db driver_id with
  | some d => { db with rows := db.rows.map (rateDriverRow driver_id d new_rating) }
  | none => db

/-- Sequential application of a list of rating scores to one driver. -/
def rateAll (db : DriversDB) (driver_id : Nat) (scores : List Int) : DriversDB :=
  scores.foldl (fun s r => update_driver_rating s driver_id r) db

lemma find?_map_comm {a : Type} (g : a → a) (q : a → Bool)
    (hg : ∀ p, q (g p) = q p) (l : List a) :
    (l.map g).find? q = (l.find? q).map g := by
  induction l with
  | nil => rfl
  | cons x l ih =>
    by_cases hqa : q x = true
    · rw [List.map_cons, List.find?_cons_of_pos _ (by rw [hg]; exact hqa),
        List.find?_cons_of_pos _ hqa, Option.map_some']
    · rw [List.map_cons, List.find?_cons_of_neg _ (by rw [hg]; exact hqa),
        List.find?_cons_of_neg _ hqa, ih]

lemma find?_append_of_none {a : Type} (q : a → Bool) (l1 l2 : List a)
    (h : l1.find? q = none) : (l1 ++ l2).find? q = l2.find? q := by
  induction l1 with
  | nil => rfl
  | cons x l ih =>
    by_cases hqa : q x = true
    · rw [List.find?_cons_of_pos _ hqa] at h
      exact absurd h (by simp)
    · rw [List.find?_cons_of_neg _ hqa] at h
      rw [List.cons_append, List.find?_cons_of_neg _ hqa, ih h]

/-- Claim C10: an upsert on an already-registered driver keeps each of
name/phone/reg_no when the corresponding argument is None (COALESCE), and
never changes status, rating, total_ratings or the stored location; only a
first-time insert sets status to offline. -/
theorem add_or_update_driver_frame :
    (∀ (db : DriversDB) (tg : Int) (name phone reg : Option String) (d : Driver),
      get_driver_by_tg db tg = some d →
      ∃ e, get_driver_by_tg (add_or_update_driver db tg name phone reg) tg = some e ∧
        (name = none → e.name = d.name) ∧
        (phone = none → e.phone = d.phone) ∧
        (reg = none → e.reg_no = d.reg_no) ∧
        e.status = d.status ∧ e.rating = d.rating ∧
        e.total_ratings = d.total_ratings ∧ e.lat = d.lat ∧ e.lng = d.lng) ∧
    (∀ (db : DriversDB) (tg : Int) (name phone reg : Option String),
      get_driver_by_tg db tg = none →
      ∃ e, get_driver_by_tg (add_or_update_driver db tg name phone reg) tg = some e ∧
        e.status = some "offline") := by
  constructor
  · intro db tg name phone reg d hd
    unfold get_driver_by_tg at hd
    obtain ⟨p, hp, hsnd⟩ := Option.map_eq_some'.mp hd
    subst hsnd
    have hq : p.2.telegram_id = tg := by simpa using List.find?_some hp
    have hg : ∀ x : Nat × Driver,
        (fun x : Nat × Driver => decide (x.2.telegram_id = tg))
            (upsertDriverRow tg name phone reg x) =
          (fun x : Nat × Driver => decide (x.2.telegram_id = tg)) x := by
      intro x
      unfold upsertDriverRow
      by_cases h : x.2.telegram_id = tg <;> simp [h]
    unfold add_or_update_driver
    rw [if_pos (by rw [hp]; rfl)]
    refine ⟨(upsertDriverRow tg name phone reg p).2, ?_, ?_, ?_, ?_, ?_, ?_, ?_, ?_, ?_⟩
    · unfold get_driver_by_tg
      rw [find?_map_comm _ _ hg db.rows, hp]
      rfl
    · intro hn; simp [upsertDriverRow, hq, coalesce, hn]
    · intro hn; simp [upsertDriverRow, hq, coalesce, hn]
    · intro hn; simp [upsertDriverRow, hq, coalesce, hn]
    · simp [upsertDriverRow, hq]
    · simp [upsertDriverRow, hq]
    · simp [upsertDriverRow, hq]
    · simp [upsertDriverRow, hq]
    · simp [upsertDriverRow, hq]
  · intro db tg name phone reg hd
    unfold get_driver_by_tg at hd
    have hnone : (db.rows.find? fun p => p.2.telegram_id = tg) = none := by
      cases h : db.rows.find? fun p => p.2.telegram_id = tg with
      | none => rfl
      | some p => rw [h] at hd; exact absurd hd (by simp)
    unfold add_or_update_driver
    rw [if_neg (by rw [hnone]; simp)]
    refine ⟨{ telegram_id := tg, name := name, phone := phone, reg_no := reg,
              status := some "offline", lat := none, lng := none, rating := 5,
              total_ratings := 0 }, ?_, rfl⟩
    unfold get_driver_by_tg
    rw [find?_append_of_none _ _ _ hnone, List.find?_cons_of_pos _ (by simp)]
    rfl

/-- Witness for C10 at a concrete table: driver 42 registers, then upserts
with name/phone/reg_no all None. -/
theorem add_or_update_driver_frame_witness :
    ∃ e, get_driver_by_tg
        (add_or_update_driver (add_or_update_driver initDriversDB 42 (some "Ann") none none)
          42 none none none) 42 = some e ∧
      (none = (none : Option String) → e.name = some "Ann") ∧
      ((none : Option String) = none → e.phone = none) ∧
      ((none : Option String) = none → e.reg_no = none) ∧
      e.status = some "offline" ∧ e.rating = 5 ∧
      e.total_ratings = 0 ∧ e.lat = none ∧ e.lng = none :=
  add_or_update_driver_frame.1 (add_or_update_driver initDriversDB 42 (some "Ann") none none)
    42 none none none
    { telegram_id := 42, name := some "Ann", phone := none, reg_no := none,
      status := some "offline", lat := none, lng := none, rating := 5,
      total_ratings := 0 }
    rfl

lemma update_driver_rating_found (db : DriversDB) (id : Nat) (score : Int) (d : Driver)
    (hd : get_driver_by_id db id = some d) :
    ∃ e, get_driver_by_id (update_driver_rating db id score) id = some e ∧
      e.rating = (d.rating * (d.total_ratings : ℚ) + (score : ℚ)) /
        ((d.total_ratings : ℚ) + 1) ∧
      e.total_ratings = d.total_ratings + 1 := by
  have hd0 := hd
  have hid : ¬ id = 0 := by
    intro h
    rw [get_driver_by_id, if_pos h] at hd
    exact Option.noConfusion hd
  rw [get_driver_by_id, if_neg hid] at hd
  obtain ⟨p, hp, hsnd⟩ := Option.map_eq_some'.mp hd
  subst hsnd
  have hq : p.1 = id := by simpa using List.find?_some hp
  have hg : ∀ x : Nat × Driver,
      (fun x : Nat × Driver => decide (x.1 = id)) (rateDriverRow id p.2 score x) =
        (fun x : Nat × Driver => decide (x.1 = id)) x := by
    intro x
    unfold rateDriverRow
    by_cases h : x.1 = id <;> simp [h]
  have hmatch : update_driver_rating db id score =
      { db with rows := db.rows.map (rateDriverRow id p.2 score) } := by
    unfold update_driver_rating
    rw [hd0]
  refine ⟨(rateDriverRow id p.2 score p).2, ?_, ?_, ?_⟩
  · rw [hmatch]
    unfold get_driver_by_id
    rw [if_neg hid, find?_map_comm _ _ hg db.rows, hp]
    rfl
  · simp [rateDriverRow, hq]
  · simp [rateDriverRow, hq]

/-- The evolution of one driver's (rating, total_ratings) pair under a single
recorded score, as `update_driver_rating` computes it. -/
def rateStep (p : ℚ × Nat) (r : Int) : ℚ × Nat :=
  ((p.1 * (p.2 : ℚ) + (r : ℚ)) / ((p.2 : ℚ) + 1), p.2 + 1)

lemma rateAll_tracks : ∀ (scores : List Int) (db : DriversDB) (id : Nat) (d : Driver),
    get_driver_by_id db id = some d →
    ∃ e, get_driver_by_id (rateAll db id scores) id = some e ∧
      (e.rating, e.total_ratings) = scores.foldl rateStep (d.rating, d.total_ratings) := by
  intro scores
  induction scores with
  | nil =>
    intro db id d hd
    exact ⟨d, hd, rfl⟩
  | cons r rest ih =>
    intro db id d hd
    obtain ⟨e1, he1, hrat, htot⟩ := update_driver_rating_found db id r d hd
    obtain ⟨e, he, hpair⟩ := ih (update_driver_rating db id r) id e1 he1
    refine ⟨e, he, ?_⟩
    rw [hpair, List.foldl_cons]
    congr 1
    exact Prod.ext hrat htot

lemma rateStep_foldl_mul : ∀ (scores : List Int) (v : ℚ) (t : Nat),
    (scores.foldl rateStep (v, t)).2 = t + scores.length ∧
    (scores.foldl rateStep (v, t)).1 * ((t : ℚ) + (scores.length : ℚ)) =
      v * (t : ℚ) + (scores.sum : ℚ) := by
  intro scores
  induction scores with
  | nil =>
    intro v t
    exact ⟨by simp, by simp⟩
  | cons r rest ih =>
    intro v t
    have hstep : rateStep (v, t) r =
        ((v * (t : ℚ) + (r : ℚ)) / ((t : ℚ) + 1), t + 1) := rfl
    rw [List.foldl_cons, hstep]
    obtain ⟨h2, h1⟩ := ih ((v * (t : ℚ) + (r : ℚ)) / ((t : ℚ) + 1)) (t + 1)
    have ht1 : ((t : ℚ) + 1) ≠ 0 := by positivity
    constructor
    · rw [h2, List.length_cons]
      omega
    · push_cast at h1
      rw [div_mul_cancel₀ _ ht1] at h1
      rw [List.length_cons, List.sum_cons]
      push_cast
      linear_combination h1

/-- Claim C5: on an existing driver, `update_driver_rating` sets the rating to
`(oldAverage * oldCount + score) / (oldCount + 1)` and increments
total_ratings by exactly one; hence after sequentially recording a nonempty
list of scores starting from total_ratings = 0, the rating equals their
arithmetic mean, independently of the submission order. -/
theorem update_driver_rating_mean :
    (∀ (db : DriversDB) (id : Nat) (score : Int) (d : Driver),
      get_driver_by_id db id = some d →
      ∃ e, get_driver_by_id (update_driver_rating db id score) id = some e ∧
        e.rating = (d.rating * (d.total_ratings : ℚ) + (score : ℚ)) /
          ((d.total_ratings : ℚ) + 1) ∧
        e.total_ratings = d.total_ratings + 1) ∧
    (∀ (db : DriversDB) (id : Nat) (d : Driver) (scores : List Int),
      get_driver_by_id db id = some d → d.total_ratings = 0 → scores ≠ [] →
      ∃ e, get_driver_by_id (rateAll db id scores) id = some e ∧
        e.rating = (scores.sum : ℚ) / (scores.length : ℚ) ∧
        e.total_ratings = scores.length) ∧
    (∀ (db : DriversDB) (id : Nat) (d : Driver) (scores1 scores2 : List Int),
      get_driver_by_id db id = some d → d.total_ratings = 0 → scores1 ≠ [] →
      scores1.Perm scores2 →
      ∃ e1 e2, get_driver_by_id (rateAll db id scores1) id = some e1 ∧
        get_driver_by_id (rateAll db id scores2) id = some e2 ∧
        e1.rating = e2.rating) := by
  have hb : ∀ (db : DriversDB) (id : Nat) (d : Driver) (scores : List Int),
      get_driver_by_id db id = some d → d.total_ratings = 0 → scores ≠ [] →
      ∃ e, get_driver_by_id (rateAll db id scores) id = some e ∧
        e.rating = (scores.sum : ℚ) / (scores.length : ℚ) ∧
        e.total_ratings = scores.length := by
    intro db id d scores hd ht hne
    obtain ⟨e, he, hpair⟩ := rateAll_tracks scores db id d hd
    obtain ⟨h2, h1⟩ := rateStep_foldl_mul scores d.rating d.total_ratings
    have her : e.rating = (scores.foldl rateStep (d.rating, d.total_ratings)).1 :=
      congrArg Prod.fst hpair
    have het : e.total_ratings = (scores.foldl rateStep (d.rating, d.total_ratings)).2 :=
      congrArg Prod.snd hpair
    have hlen : ((scores.length : ℚ)) ≠ 0 := by
      have hpos : 0 < scores.length := List.length_pos.mpr hne
      positivity
    rw [ht] at h1 h2 her het
    refine ⟨e, he, ?_, ?_⟩
    · rw [her, eq_div_iff hlen]
      simpa using h1
    · rw [het, h2]
      omega
  refine ⟨update_driver_rating_found, hb, ?_⟩
  intro db id d scores1 scores2 hd ht hne hperm
  have hne2 : scores2 ≠ [] := by
    intro h
    rw [h] at hperm
    exact hne hperm.eq_nil
  obtain ⟨e1, he1, hr1, _⟩ := hb db id d scores1 hd ht hne
  obtain ⟨e2, he2, hr2, _⟩ := hb db id d scores2 hd ht hne2
  refine ⟨e1, e2, he1, he2, ?_⟩
  rw [hr1, hr2, hperm.sum_eq, hperm.length_eq]

/-- Witness for C5 at a concrete table: driver id 1 (telegram 42) receives
scores 5 and 3; the mean is 4. -/
theorem update_driver_rating_mean_witness :
    ∃ e, get_driver_by_id
        (rateAll (add_or_update_driver initDriversDB 42 (some "Ann") none none) 1 [5, 3])
        1 = some e ∧
      e.rating = (([5, 3] : List Int).sum : ℚ) / (([5, 3] : List Int).length : ℚ) ∧
      e.total_ratings = ([5, 3] : List Int).length :=
  update_driver_rating_mean.2.1 (add_or_update_driver initDriversDB 42 (some "Ann") none none)
    1
    { telegram_id := 42, name := some "Ann", phone := none, reg_no := none,
      status := some "offline", lat := none, lng := none, rating := 5,
      total_ratings := 0 }
    [5, 3] rfl rfl (List.cons_ne_nil _ _)

end TukTuk
